import Mathlib

/-!
Verification of the music fusion/generation pipeline (FastAPI + Celery
application).  The definitions below are a shallow embedding of the
repository's Python source:

* `app/services/audio_mixing.py`   — volume adjustment, peak normalization,
  stem mixing (audio arrays are embedded as `List ℚ`, one rational per
  sample; NumPy float arithmetic is modelled exactly over ℚ).
* `app/schemas/fusion.py`          — pydantic validation of `FusionRequest`.
* `app/celeryworker/tasks.py`      — the four Celery pipeline tasks and the
  `cleanup_temp_files` reaper, modelled as transitions on an explicit
  `World` state (filesystem entries, database rows, uploaded artifacts).
* `app/celeryworker/worker.py`     — beat schedule constants.
* `app/api/fusion.py`              — the prepare-prompt / generate / status /
  download endpoints, modelled as functions from request + database state to
  an HTTP outcome plus the dispatched Celery chain.
* `app/api/mixed_track.py`         — the mix-stems endpoint.
* `app/services/music_generation.py` — the Replicate-backed
  `generate_music_with_stems` service.

Fallible Python code is embedded with `Except`; an uncaught Python exception
that would escape a FastAPI handler is a distinguished server-error outcome.
-/

namespace Music

/-! ## Audio mixing service (`app/services/audio_mixing.py`) -/

/-- Peak amplitude `np.max(np.abs(audio_data))` of an audio array.
(NumPy raises on an empty array; the embedding is only ever applied to
nonempty sample lists, and theorems about it carry a nonemptiness
hypothesis.) -/
def maxAbs (xs : List ℚ) : ℚ :=
  xs.foldr (fun x m => max |x| m) 0

/-- `adjust_volume`: clip the volume factor to `[0.0, 2.0]` and scale every
sample by it. -/
def adjustVolume (audioData : List ℚ) (volumeFactor : ℚ) : List ℚ :=
  let vf := max 0 (min 2 volumeFactor)
  audioData.map (fun x => x * vf)

/-- The default `target_level = 0.8` of `normalize_audio`. -/
def targetDefault : ℚ := 4/5

/-- `normalize_audio`: find the current peak; if it is zero return the input
unchanged (the "avoid division by zero" guard), otherwise scale by
`target_level / current_peak`. -/
def normalizeAudio (targetLevel : ℚ) (audioData : List ℚ) : List ℚ :=
  let currentPeak := maxAbs audioData
  if currentPeak = 0 then audioData
  else
    let normFactor := targetLevel / currentPeak
    audioData.map (fun x => x * normFactor)

/-- Elementwise sum of two sample lists after truncating both to the shorter
length (`min_length` handling in `mix_audio_stems`). -/
def addTrunc (a b : List ℚ) : List ℚ :=
  List.zipWith (· + ·) a b

/-- Volume factor looked up per stem type, `volume_levels.get(stem_type, 1.0)`;
a `none` dictionary means the caller passed no volume levels, in which case
the source fills every stem with factor `1.0`. -/
def volumeOf (volumeLevels : Option (List (String × ℚ))) (stemType : String) : ℚ :=
  match volumeLevels with
  | none => 1
  | some vl =>
    match vl.lookup stemType with
    | none => 1
    | some v => v

/-- The accumulation loop of `mix_audio_stems`: a stem whose file does not
exist (or fails to load) is skipped with a warning; a loaded stem is
volume-adjusted and added to the running mix (truncating to the shorter
length when lengths differ).  Each list entry pairs the stem type with
`some samples` (file exists and loads) or `none` (missing file). -/
def mixLoop (volumeLevels : Option (List (String × ℚ))) :
    List (String × Option (List ℚ)) → Option (List ℚ) → Option (List ℚ)
  | [], acc => acc
  | (_, none) :: rest, acc => mixLoop volumeLevels rest acc
  | (stemType, some audioData) :: rest, acc =>
    let adjusted := adjustVolume audioData (volumeOf volumeLevels stemType)
    match acc with
    | none => mixLoop volumeLevels rest (some adjusted)
    | some mixed => mixLoop volumeLevels rest (some (addTrunc mixed adjusted))

/-- `mix_audio_stems`: accumulate the loaded stems; if none loaded raise
`ValueError("No valid stems to mix")`; otherwise normalize the mix (default
target level) and return it. -/
def mixAudioStems (stemPaths : List (String × Option (List ℚ)))
    (volumeLevels : Option (List (String × ℚ))) : Except String (List ℚ) :=
  match mixLoop volumeLevels stemPaths none with
  | none => .error "No valid stems to mix"
  | some mixedAudio => .ok (normalizeAudio targetDefault mixedAudio)

/-! ### Lemmas about peak normalization -/

theorem maxAbs_nonneg (xs : List ℚ) : 0 ≤ maxAbs xs := by
  induction xs with
  | nil => simp [maxAbs]
  | cons x xs ih =>
    simp only [maxAbs, List.foldr] at *
    exact le_trans ih (le_max_right _ _)

theorem maxAbs_map_mul (xs : List ℚ) (c : ℚ) :
    maxAbs (xs.map (fun x => x * c)) = maxAbs xs * |c| := by
  induction xs with
  | nil => simp [maxAbs]
  | cons x xs ih =>
    simp only [maxAbs, List.map, List.foldr] at *
    rw [ih, abs_mul, max_mul_of_nonneg _ _ (abs_nonneg c)]

theorem maxAbs_eq_zero_of_all_zero (xs : List ℚ) (h : ∀ x ∈ xs, x = 0) :
    maxAbs xs = 0 := by
  induction xs with
  | nil => simp [maxAbs]
  | cons x xs ih =>
    simp only [maxAbs, List.foldr] at *
    rw [h x (List.mem_cons_self x xs), ih (fun y hy => h y (List.mem_cons_of_mem x hy))]
    simp

theorem normalizeAudio_peak (t : ℚ) (ht : 0 ≤ t) (xs : List ℚ)
    (h : maxAbs xs ≠ 0) : maxAbs (normalizeAudio t xs) = t := by
  have hpos : 0 < maxAbs xs := lt_of_le_of_ne (maxAbs_nonneg xs) (Ne.symm h)
  unfold normalizeAudio
  simp only [h, if_false]
  rw [maxAbs_map_mul, abs_div, abs_of_nonneg ht, abs_of_pos hpos]
  field_simp

theorem adjustVolume_all_zero (a : List ℚ) (v : ℚ) (h : ∀ x ∈ a, x = 0) :
    ∀ x ∈ adjustVolume a v, x = 0 := by
  intro x hx
  simp only [adjustVolume, List.mem_map] at hx
  obtain ⟨y, hy, rfl⟩ := hx
  rw [h y hy, zero_mul]

theorem addTrunc_all_zero (a b : List ℚ) (ha : ∀ x ∈ a, x = 0)
    (hb : ∀ x ∈ b, x = 0) : ∀ x ∈ addTrunc a b, x = 0 := by
  induction a generalizing b with
  | nil => simp [addTrunc]
  | cons x xs ih =>
    cases b with
    | nil => simp [addTrunc]
    | cons y ys =>
      intro z hz
      simp only [addTrunc, List.zipWith] at hz
      rcases List.mem_cons.mp hz with h | h
      · rw [h, ha x (List.mem_cons_self x xs), hb y (List.mem_cons_self y ys), add_zero]
      · exact ih ys (fun w hw => ha w (List.mem_cons_of_mem x hw))
          (fun w hw => hb w (List.mem_cons_of_mem y hw)) z h

theorem mixLoop_isSome (vols : Option (List (String × ℚ)))
    (stems : List (String × Option (List ℚ))) (acc : Option (List ℚ))
    (h : acc.isSome ∨ ∃ s ∈ stems, s.2.isSome) :
    (mixLoop vols stems acc).isSome := by
  induction stems generalizing acc with
  | nil =>
    rcases h with h | ⟨s, hs, _⟩
    · simpa [mixLoop] using h
    · exact absurd hs (List.not_mem_nil s)
  | cons s rest ih =>
    obtain ⟨ty, o⟩ := s
    cases o with
    | none =>
      simp only [mixLoop]
      apply ih
      rcases h with h | ⟨s, hs, hsome⟩
      · exact Or.inl h
      · rcases List.mem_cons.mp hs with rfl | hs
        · simp at hsome
        · exact Or.inr ⟨s, hs, hsome⟩
    | some a =>
      cases acc with
      | none => simp only [mixLoop]; exact ih _ (Or.inl rfl)
      | some m => simp only [mixLoop]; exact ih _ (Or.inl rfl)

theorem mixLoop_all_zero (vols : Option (List (String × ℚ)))
    (stems : List (String × Option (List ℚ))) (acc : Option (List ℚ))
    (hacc : ∀ a, acc = some a → ∀ x ∈ a, x = 0)
    (hstems : ∀ s ∈ stems, ∀ a, s.2 = some a → ∀ x ∈ a, x = 0) :
    ∀ m, mixLoop vols stems acc = some m → ∀ x ∈ m, x = 0 := by
  induction stems generalizing acc with
  | nil => simpa [mixLoop] using hacc
  | cons s rest ih =>
    obtain ⟨ty, o⟩ := s
    have hrest : ∀ s ∈ rest, ∀ a, s.2 = some a → ∀ x ∈ a, x = 0 :=
      fun s hs => hstems s (List.mem_cons_of_mem _ hs)
    cases o with
    | none => simp only [mixLoop]; exact ih acc hacc hrest
    | some a =>
      have haz : ∀ x ∈ a, x = 0 :=
        hstems (ty, some a) (List.mem_cons_self _ _) a rfl
      have hadj : ∀ x ∈ adjustVolume a (volumeOf vols ty), x = 0 :=
        adjustVolume_all_zero a _ haz
      cases acc with
      | none =>
        simp only [mixLoop]
        exact ih _ (fun b hb => by injection hb with h; exact h ▸ hadj) hrest
      | some m =>
        simp only [mixLoop]
        have hm : ∀ x ∈ m, x = 0 := hacc m rfl
        exact ih _ (fun b hb => by
          injection hb with h
          exact h ▸ addTrunc_all_zero m _ hm hadj) hrest

/-- C10: for every (nonempty) audio array, `normalize_audio` returns the
input unchanged when its peak amplitude is zero, and otherwise returns the
array scaled so that its peak equals the target level; consequently
`mix_audio_stems` never divides by zero when normalizing its final mix —
even when every loaded stem is silent it succeeds and returns the (silent)
mix. -/
theorem c10_normalize_zero_peak_guard (t : ℚ) (ht : 0 ≤ t) (xs : List ℚ)
    (hxs : xs ≠ []) (stems : List (String × Option (List ℚ)))
    (vols : Option (List (String × ℚ)))
    (hsome : ∃ s ∈ stems, (s.2).isSome)
    (hsilent : ∀ s ∈ stems, ∀ a, s.2 = some a → ∀ x ∈ a, x = 0) :
    (maxAbs xs = 0 → normalizeAudio t xs = xs) ∧
    (maxAbs xs ≠ 0 → maxAbs (normalizeAudio t xs) = t) ∧
    ∃ m, mixAudioStems stems vols = Except.ok m ∧ ∀ x ∈ m, x = 0 := by
  refine ⟨fun h => by simp [normalizeAudio, h], normalizeAudio_peak t ht xs, ?_⟩
  have hs : (mixLoop vols stems none).isSome :=
    mixLoop_isSome vols stems none (Or.inr hsome)
  obtain ⟨m, hm⟩ := Option.isSome_iff_exists.mp hs
  have hmz : ∀ x ∈ m, x = 0 :=
    mixLoop_all_zero vols stems none (fun a ha => by cases ha) hsilent m hm
  have hpeak : maxAbs m = 0 := maxAbs_eq_zero_of_all_zero m hmz
  refine ⟨m, ?_, hmz⟩
  simp [mixAudioStems, hm, normalizeAudio, hpeak]

/-- Witness for C10 at `t = 4/5`, `xs = [1/2]`, one silent drums stem. -/
theorem c10_normalize_zero_peak_guard_witness :
    ((0:ℚ) ≤ 4/5 ∧ ([(1/2 : ℚ)] ≠ []) ∧
      (∃ s ∈ [("drums", some [(0:ℚ), 0])], (s.2).isSome) ∧
      (∀ s ∈ [("drums", some [(0:ℚ), 0])], ∀ a, s.2 = some a → ∀ x ∈ a, x = 0)) ∧
    ((maxAbs [(1/2:ℚ)] = 0 → normalizeAudio (4/5) [(1/2:ℚ)] = [(1/2:ℚ)]) ∧
      (maxAbs [(1/2:ℚ)] ≠ 0 → maxAbs (normalizeAudio (4/5) [(1/2:ℚ)]) = 4/5) ∧
      ∃ m, mixAudioStems [("drums", some [(0:ℚ), 0])] none = Except.ok m ∧
        ∀ x ∈ m, x = 0) := by
  refine ⟨⟨by norm_num, by simp, ⟨("drums", some [(0:ℚ), 0]), by simp, by simp⟩,
    by simp +decide⟩, ?_⟩
  exact c10_normalize_zero_peak_guard (4/5) (by norm_num) [(1/2:ℚ)] (by simp)
    [("drums", some [(0:ℚ), 0])] none
    ⟨("drums", some [(0:ℚ), 0]), by simp, by simp⟩ (by simp +decide)

/-! ## Fusion request schema (`app/schemas/fusion.py`) and generation-stage
parameter handling (`app/celeryworker/tasks.py`, `generate_fusion`) -/

/-- The fields of `FusionRequest` relevant to validation (defaults already
substituted; `custom_prompt` length is tracked as a `Nat`). -/
structure FusionRequestIn where
  track1_id : Int
  track2_id : Int
  proj_id : Int
  duration : Int
  temperature : ℚ
  prompt_guidance : ℚ
  custom_prompt : Option String
deriving Repr, DecidableEq

/-- Pydantic field validation of `FusionRequest`: `duration` must lie in
`[5, 30]`, `temperature` in `[0.1, 1.5]`, `prompt_guidance` in `[1.0, 7.0]`,
and `custom_prompt` is at most 500 characters.  An out-of-range value makes
FastAPI reject the request with a 422 validation error before any handler
code runs. -/
def validateFusionRequest (r : FusionRequestIn) : Except String FusionRequestIn :=
  if r.duration < 5 ∨ 30 < r.duration then
    .error "duration: ensure value is in range 5..30"
  else if r.temperature < 1/10 ∨ 3/2 < r.temperature then
    .error "temperature: ensure value is in range 0.1..1.5"
  else if r.prompt_guidance < 1 ∨ 7 < r.prompt_guidance then
    .error "prompt_guidance: ensure value is in range 1.0..7.0"
  else if 500 < (r.custom_prompt.getD "").length then
    .error "custom_prompt: ensure value has at most 500 characters"
  else
    .ok r

/-- `safe_duration = max(5, min(30, duration))` in `generate_fusion`. -/
def safeDuration (duration : Int) : Int := max 5 (min 30 duration)

/-- `safe_guidance_scale = max(1.0, min(7.0, prompt_guidance))` in
`generate_fusion`. -/
def safeGuidanceScale (promptGuidance : ℚ) : ℚ := max 1 (min 7 promptGuidance)

/-- The keyword arguments of the `musicgen.generate(...)` call made by
`generate_fusion`: prompt, clamped duration, clamped guidance scale and the
fixed `num_inference_steps=50`.  The call passes no temperature argument. -/
structure GenerateCall where
  prompt : String
  duration : Int
  guidance_scale : ℚ
  num_inference_steps : Nat
deriving Repr, DecidableEq

/-- The `musicgen.generate` call `generate_fusion` constructs from its task
parameters.  `temperature` is accepted as a task parameter but is neither
clamped nor forwarded. -/
def genCallOf (prompt : String) (duration : Int) (temperature : ℚ)
    (promptGuidance : ℚ) : GenerateCall :=
  { prompt := prompt
    duration := safeDuration duration
    guidance_scale := safeGuidanceScale promptGuidance
    num_inference_steps := 50 }

/-- C2 counterexample: submitting `temperature = 10.0` does NOT reach the
generate stage clamped to `1.5` — the pydantic schema rejects the request
with a validation error; and even called directly, the generate stage
ignores `temperature` entirely (its `musicgen.generate` call is identical
for `temperature = 10` and `temperature = 1`). -/
theorem c2_counterexample :
    validateFusionRequest
      { track1_id := 1, track2_id := 2, proj_id := 1, duration := 15,
        temperature := 10, prompt_guidance := 3, custom_prompt := none }
      = Except.error "temperature: ensure value is in range 0.1..1.5" ∧
    genCallOf "p" 15 10 3 = genCallOf "p" 15 1 3 := by
  constructor
  · simp [validateFusionRequest]
    norm_num
  · rfl

/-- C2 (amended): inside the generate stage, `duration` and
`prompt_guidance` are clamped to their nearest declared bound (out-of-range
values map to the violated bound, in-range values pass through); but
`temperature` is not clamped — an out-of-range temperature is rejected by
the `FusionRequest` schema with a validation error, and the stage's
`musicgen.generate` call does not depend on temperature at all. -/
theorem c2_clamp_duration_guidance_not_temperature
    (d : Int) (g t : ℚ) (p : String) (ht : 3/2 < t) :
    (30 < d → safeDuration d = 30) ∧
    (d < 5 → safeDuration d = 5) ∧
    (5 ≤ d → d ≤ 30 → safeDuration d = d) ∧
    (7 < g → safeGuidanceScale g = 7) ∧
    (g < 1 → safeGuidanceScale g = 1) ∧
    (1 ≤ g → g ≤ 7 → safeGuidanceScale g = g) ∧
    (∀ r : FusionRequestIn, r.temperature = t →
      ∃ e, validateFusionRequest r = Except.error e) ∧
    (∀ t' : ℚ, genCallOf p d t g = genCallOf p d t' g) := by
  refine ⟨?_, ?_, ?_, ?_, ?_, ?_, ?_, fun _ => rfl⟩
  · intro h
    simp only [safeDuration, min_eq_left (le_of_lt h)]
    norm_num
  · intro h
    have h30 : d ≤ 30 := le_trans (le_of_lt h) (by norm_num)
    simp only [safeDuration, min_eq_right h30, max_eq_left (le_of_lt h)]
  · intro h1 h2
    simp only [safeDuration, min_eq_right h2, max_eq_right h1]
  · intro h
    simp only [safeGuidanceScale, min_eq_left (le_of_lt h)]
    norm_num
  · intro h
    have h7 : g ≤ 7 := le_trans (le_of_lt h) (by norm_num)
    simp only [safeGuidanceScale, min_eq_right h7, max_eq_left (le_of_lt h)]
  · intro h1 h2
    simp only [safeGuidanceScale, min_eq_right h2, max_eq_right h1]
  · intro r hr
    unfold validateFusionRequest
    split_ifs with h1 h2 h3 h4
    · exact ⟨_, rfl⟩
    · exact ⟨_, rfl⟩
    · exact ⟨_, rfl⟩
    · exact ⟨_, rfl⟩
    · exact absurd (Or.inr (hr ▸ ht)) h2

/-- Witness for C2 (amended) at `d = 40`, `g = 10`, `t = 10`, `p = "x"`. -/
theorem c2_clamp_witness :
    ((3:ℚ)/2 < 10) ∧
    ((30 < (40:Int) → safeDuration 40 = 30) ∧
      ((40:Int) < 5 → safeDuration 40 = 5) ∧
      (5 ≤ (40:Int) → (40:Int) ≤ 30 → safeDuration 40 = 40) ∧
      ((7:ℚ) < 10 → safeGuidanceScale 10 = 7) ∧
      ((10:ℚ) < 1 → safeGuidanceScale 10 = 1) ∧
      ((1:ℚ) ≤ 10 → (10:ℚ) ≤ 7 → safeGuidanceScale 10 = 10) ∧
      (∀ r : FusionRequestIn, r.temperature = 10 →
        ∃ e, validateFusionRequest r = Except.error e) ∧
      (∀ t' : ℚ, genCallOf "x" 40 10 10 = genCallOf "x" 40 t' 10)) :=
  ⟨by norm_num, c2_clamp_duration_guidance_not_temperature 40 10 10 "x" (by norm_num)⟩

/-! ## Fusion status enum and the download endpoint (`app/api/fusion.py`) -/

/-- The values of `FusionStatusEnum` (`app/schemas/fusion.py`), identical to
`FusionStatus` in `app/db/models/fusion.py`. -/
def fusionStatusValues : List String :=
  ["pending", "processing", "feature_extraction", "generating", "enhancing",
   "completed", "failed", "cancelled"]

/-- A row of the `audio_files` table as declared by the `AudioFile` model
(`app/db/models/audio_file.py`).  The model declares NO `progress`,
`error_message` or `completed_at` column — the fusion status endpoint
nevertheless reads those attributes.  The `source_track*_id` columns are
declared `Integer`, but the two writers disagree: the generate endpoint
stores the integer `AudioFile.id`, while `enhance_audio` stores the Google
Drive metadata id string; the sum type records which happened. -/
structure AudioRec where
  id : Nat
  filename : String
  gdrive_file_id : String
  proj_id : Int
  user_id : Int
  is_fusion : Bool
  source_track1_id : Option (Int ⊕ String)
  source_track2_id : Option (Int ⊕ String)
  fusion_metadata : Option String
  status : String
  task_id : Option String
deriving Repr, DecidableEq

/-- The query shared by the status and download endpoints:
`AudioFile.id == fusion_id AND AudioFile.user_id == user AND is_fusion`. -/
def findFusionTrack (db : List AudioRec) (fusionId : Nat) (userId : Int) :
    Option AudioRec :=
  db.find? (fun r => r.id == fusionId && r.user_id == userId && r.is_fusion)

/-- Outcome of `GET /download/{fusion_id}`. -/
inductive DownloadResult where
  /-- HTTP 404 "Fusion track not found". -/
  | notFound
  /-- HTTP 400 "Fusion track not ready for download". -/
  | notReady
  /-- The file response streamed after fetching the stored artifact id from
  Google Drive. -/
  | fileResponse (gdriveFileId filename : String)
deriving Repr, DecidableEq

/-- `download_fusion`: look the record up; 404 if absent; 400 unless
`status == "SUCCESS"`; otherwise download `gdrive_file_id` and return the
file. -/
def downloadFusion (db : List AudioRec) (fusionId : Nat) (userId : Int) :
    DownloadResult :=
  match findFusionTrack db fusionId userId with
  | none => .notFound
  | some r =>
    if r.status ≠ "SUCCESS" then .notReady
    else .fileResponse r.gdrive_file_id r.filename

/-- C3 (code bug): `download_fusion` only succeeds when the record's status
is the literal `"SUCCESS"` — a value outside `FusionStatusEnum`.  For every
status in the enum, including the terminal `COMPLETED` (`"completed"`), the
endpoint answers with the 400 client error, so a COMPLETED job's artifact is
never returned, contradicting the claim's success case (its failure case —
client error on non-terminal/failed jobs — does hold). -/
theorem c3_download_never_succeeds_on_enum_status (rec : AudioRec)
    (hf : rec.is_fusion = true) (hs : rec.status ∈ fusionStatusValues) :
    downloadFusion [rec] rec.id rec.user_id = DownloadResult.notReady := by
  have hfind : findFusionTrack [rec] rec.id rec.user_id = some rec := by
    simp [findFusionTrack, List.find?, hf]
  have hne : rec.status ≠ "SUCCESS" := by
    simp only [fusionStatusValues, List.mem_cons, List.not_mem_nil, or_false] at hs
    rcases hs with h | h | h | h | h | h | h | h <;> simp [h]
  simp [downloadFusion, hfind, hne]

/-- Witness for C3 at a concrete record with status `"completed"`. -/
theorem c3_download_never_succeeds_on_enum_status_witness :
    (({ id := 7, filename := "fusion.wav", gdrive_file_id := "gd123",
        proj_id := 1, user_id := 2, is_fusion := true,
        source_track1_id := some (.inl 1), source_track2_id := some (.inl 2),
        fusion_metadata := none, status := "completed",
        task_id := some "t1" } : AudioRec).is_fusion = true ∧
      ({ id := 7, filename := "fusion.wav", gdrive_file_id := "gd123",
         proj_id := 1, user_id := 2, is_fusion := true,
         source_track1_id := some (.inl 1), source_track2_id := some (.inl 2),
         fusion_metadata := none, status := "completed",
         task_id := some "t1" } : AudioRec).status ∈ fusionStatusValues) ∧
    downloadFusion
      [{ id := 7, filename := "fusion.wav", gdrive_file_id := "gd123",
         proj_id := 1, user_id := 2, is_fusion := true,
         source_track1_id := some (.inl 1), source_track2_id := some (.inl 2),
         fusion_metadata := none, status := "completed",
         task_id := some "t1" }] 7 2 = DownloadResult.notReady :=
  ⟨⟨rfl, by simp [fusionStatusValues]⟩,
    c3_download_never_succeeds_on_enum_status _ rfl (by simp [fusionStatusValues])⟩

/-! ## `feature_data_json` continuation-token handling
(`app/api/fusion.py`, `generate_fusion_track`)

The endpoint receives `feature_data_json` as a string and runs it through
`json.loads`; on parse failure the string is taken as a bare task id
(`.strip('"')`).  We embed the relevant fragment of `json.loads` as a small
recursive-descent routine producing a `JValue`. -/

/-- A parsed Python/JSON value. -/
inductive JValue where
  | null
  | bool (b : Bool)
  /-- A numeric literal; the lexeme is kept verbatim. -/
  | num (lit : String)
  | str (s : String)
  | arr (items : List JValue)
  | obj (fields : List (String × JValue))

/-- JSON insignificant whitespace. -/
def isJsonWs (c : Char) : Bool :=
  c == ' ' || c == '\t' || c == '\n' || c == '\r'

def skipWs (cs : List Char) : List Char := cs.dropWhile isJsonWs

def isDigitChar (c : Char) : Bool := '0' ≤ c && c ≤ '9'

def isHexChar (c : Char) : Bool :=
  isDigitChar c || ('a' ≤ c && c ≤ 'f') || ('A' ≤ c && c ≤ 'F')

def hexVal (c : Char) : Nat :=
  if isDigitChar c then c.toNat - '0'.toNat
  else if 'a' ≤ c && c ≤ 'f' then c.toNat - 'a'.toNat + 10
  else c.toNat - 'A'.toNat + 10

/-- Four hex digits of a `\uXXXX` escape. -/
def parseHex4 (cs : List Char) : Option (Nat × List Char) :=
  match cs with
  | a :: b :: c :: d :: rest =>
    if isHexChar a && isHexChar b && isHexChar c && isHexChar d then
      some (((hexVal a * 16 + hexVal b) * 16 + hexVal c) * 16 + hexVal d, rest)
    else none
  | _ => none

/-- Single-character string escapes accepted by JSON. -/
def escChar (c : Char) : Option Char :=
  if c = '"' then some '"'
  else if c = '\\' then some '\\'
  else if c = '/' then some '/'
  else if c = 'b' then some (Char.ofNat 8)
  else if c = 'f' then some (Char.ofNat 12)
  else if c = 'n' then some '\n'
  else if c = 'r' then some '\r'
  else if c = 't' then some '\t'
  else none

/-- Body of a JSON string (after the opening quote): raw control characters
and invalid escapes are rejected, as `json.loads` does. -/
def parseStrBody : Nat → List Char → List Char → Option (String × List Char)
  | 0, _, _ => none
  | _ + 1, acc, [] => none
  | fuel + 1, acc, c :: rest =>
    if c = '"' then some (String.mk acc.reverse, rest)
    else if c = '\\' then
      match rest with
      | [] => none
      | e :: rest2 =>
        if e = 'u' then
          match parseHex4 rest2 with
          | some (n, rest3) => parseStrBody fuel (Char.ofNat n :: acc) rest3
          | none => none
        else
          match escChar e with
          | some c2 => parseStrBody fuel (c2 :: acc) rest2
          | none => none
    else if c.toNat < 32 then none
    else parseStrBody fuel (c :: acc) rest

/-- One-or-more decimal digits. -/
def parseDigits (cs : List Char) : Option (List Char × List Char) :=
  let ds := cs.takeWhile isDigitChar
  if ds.isEmpty then none else some (ds, cs.drop ds.length)

/-- The integer part of a JSON number: `0` or a nonzero digit followed by
digits. -/
def parseIntPart (cs : List Char) : Option (List Char × List Char) :=
  match cs with
  | '0' :: rest => some (['0'], rest)
  | c :: _ => if '1' ≤ c && c ≤ '9' then parseDigits cs else none
  | [] => none

/-- A JSON number literal, following the lexer regex of `json`:
`-?(0|[1-9][0-9]*)(\.[0-9]+)?([eE][-+]?[0-9]+)?` matched greedily; what the
regex does not consume is left as remaining input (and, as in Python, makes
the surrounding parse fail as stray data). -/
def parseNum (cs : List Char) : Option (String × List Char) :=
  let (negChars, cs1) :=
    match cs with
    | '-' :: r => (['-'], r)
    | _ => (([] : List Char), cs)
  match parseIntPart cs1 with
  | none => none
  | some (ip, cs2) =>
    let (fracChars, cs3) :=
      match cs2 with
      | '.' :: r =>
        match parseDigits r with
        | some (ds, r2) => ('.' :: ds, r2)
        | none => (([] : List Char), cs2)
      | _ => (([] : List Char), cs2)
    let (expChars, cs4) :=
      match cs3 with
      | e :: r =>
        if e = 'e' ∨ e = 'E' then
          match r with
          | s :: r2 =>
            if s = '+' ∨ s = '-' then
              match parseDigits r2 with
              | some (ds, r3) => (e :: s :: ds, r3)
              | none => (([] : List Char), cs3)
            else
              match parseDigits r with
              | some (ds, r3) => (e :: ds, r3)
              | none => (([] : List Char), cs3)
          | [] => (([] : List Char), cs3)
        else (([] : List Char), cs3)
      | [] => (([] : List Char), cs3)
    some (String.mk (negChars ++ ip ++ fracChars ++ expChars), cs4)

/-- Literal keyword (`null`, `true`, `false`) matching. -/
def matchLit (lit : List Char) (cs : List Char) : Option (List Char) :=
  if cs.take lit.length = lit then some (cs.drop lit.length) else none

mutual

/-- Recursive-descent JSON value, mirroring `json.loads`.  The `fuel`
argument only bounds recursion depth; `jsonLoads` supplies enough for any
input of the given length. -/
def parseValue : Nat → List Char → Option (JValue × List Char)
  | 0, _ => none
  | _ + 1, [] => none
  | fuel + 1, c :: rest =>
    if c = 'n' then (matchLit ['u','l','l'] rest).map (fun r => (JValue.null, r))
    else if c = 't' then (matchLit ['r','u','e'] rest).map (fun r => (JValue.bool true, r))
    else if c = 'f' then (matchLit ['a','l','s','e'] rest).map (fun r => (JValue.bool false, r))
    else if c = '"' then
      (parseStrBody (rest.length + 1) [] rest).map (fun (s, r) => (JValue.str s, r))
    else if c = '[' then
      let cs1 := skipWs rest
      match cs1 with
      | ']' :: r => some (JValue.arr [], r)
      | _ =>
        (parseArrItems fuel [] cs1).map (fun (items, r) => (JValue.arr items, r))
    else if c = Char.ofNat 123 then  -- opening brace
      let cs1 := skipWs rest
      match cs1 with
      | c1 :: r =>
        if c1 = Char.ofNat 125 then some (JValue.obj [], r)  -- closing brace
        else (parseObjItems fuel [] cs1).map (fun (fields, r2) => (JValue.obj fields, r2))
      | [] => none
    else if c = '-' ∨ isDigitChar c then
      (parseNum (c :: rest)).map (fun (lit, r) => (JValue.num lit, r))
    else none

/-- Comma-separated array items up to the closing bracket. -/
def parseArrItems : Nat → List JValue → List Char → Option (List JValue × List Char)
  | 0, _, _ => none
  | fuel + 1, acc, cs =>
    match parseValue fuel cs with
    | none => none
    | some (v, r) =>
      match skipWs r with
      | ',' :: r2 => parseArrItems fuel (v :: acc) (skipWs r2)
      | ']' :: r2 => some ((v :: acc).reverse, r2)
      | _ => none

/-- Comma-separated `"key": value` pairs up to the closing brace. -/
def parseObjItems : Nat → List (String × JValue) → List Char →
    Option (List (String × JValue) × List Char)
  | 0, _, _ => none
  | fuel + 1, acc, cs =>
    match cs with
    | '"' :: r =>
      match parseStrBody (r.length + 1) [] r with
      | none => none
      | some (key, r2) =>
        match skipWs r2 with
        | ':' :: r3 =>
          match parseValue fuel (skipWs r3) with
          | none => none
          | some (v, r4) =>
            match skipWs r4 with
            | ',' :: r5 => parseObjItems fuel ((key, v) :: acc) (skipWs r5)
            | c :: r5 =>
              if c = Char.ofNat 125 then some (((key, v) :: acc).reverse, r5)
              else none
            | [] => none
        | _ => none
    | _ => none

end

/-- `json.loads`: parse a complete JSON document, requiring only whitespace
after the value. -/
def jsonLoads (s : String) : Option JValue :=
  match parseValue (2 * s.length + 2) (skipWs s.toList) with
  | some (v, rest) => if (skipWs rest).isEmpty then some v else none
  | none => none

/-- Python truthiness of a number literal: falsy iff its value is zero,
i.e. every digit of the mantissa (before any exponent) is `0`. -/
def numIsZero (lit : String) : Bool :=
  ((lit.toList.takeWhile (fun c => !(c == 'e') && !(c == 'E'))).filter
    isDigitChar).all (fun c => c == '0')

/-- Python truthiness of a parsed JSON value (`if not feature_data.get(...)`). -/
def truthy : JValue → Bool
  | .null => false
  | .bool b => b
  | .num lit => !(numIsZero lit)
  | .str s => !(s == "")
  | .arr items => !items.isEmpty
  | .obj fields => !fields.isEmpty

/-- `dict.get(key)` on a dict built by `json.loads`: a duplicated key keeps
its last value. -/
def objGet (fields : List (String × JValue)) (key : String) : Option JValue :=
  fields.reverse.lookup key

/-- Python `str.strip('"')`: remove all leading and trailing double quotes. -/
def stripQuotes (s : String) : String :=
  String.mk (((s.toList.dropWhile (· == '"')).reverse.dropWhile (· == '"')).reverse)

/-- Outcome of the `feature_data_json` handling in `generate_fusion_track`,
up to dispatching the Celery chain. -/
inductive TokenOutcome where
  /-- The chain is dispatched with this `feature_data` dict. -/
  | ok (featureData : JValue)
  /-- `HTTPException(status_code=400, detail=...)`. -/
  | clientError (detail : String)
  /-- An exception no handler catches (the `AttributeError` from calling
  `.get` on a non-dict), surfacing as an HTTP 500 server error. -/
  | serverError

/-- The `feature_data_json` processing of `POST /generate/`
(`app/api/fusion.py`): an empty/absent value is rejected up front with 400;
a value parsing as a JSON object is used as the `feature_data` dict; a value
failing to parse is wrapped as `{"task_id": value.strip('"')}`; then a
missing or falsy `task_id` raises `ValueError`, caught and turned into 400
"Invalid feature data format".  A value parsing as JSON but not as an object
reaches `feature_data.get("task_id")` on a non-dict and dies with an
uncaught `AttributeError`.  (The `isinstance(..., dict)` branch of the source
is unreachable through the API because pydantic types the field `Optional[str]`.) -/
def resolveFeatureData (featureDataJson : String) : TokenOutcome :=
  if featureDataJson = "" then
    .clientError "feature_data_json is required. Call /prepare-prompt/ first to get feature data."
  else
    match jsonLoads featureDataJson with
    | some (.obj fields) =>
      match objGet fields "task_id" with
      | some tv =>
        if truthy tv then .ok (.obj fields)
        else .clientError "Invalid feature data format"
      | none => .clientError "Invalid feature data format"
    | some _ => .serverError
    | none =>
      let taskId := stripQuotes featureDataJson
      if taskId = "" then .clientError "Invalid feature data format"
      else .ok (.obj [("task_id", .str taskId)])

/-- C5 counterexample: the token `"null"` embeds no identifier, yet the
endpoint does not reject it with a 400 client error — `json.loads` parses it
to `None` and `feature_data.get("task_id")` raises an uncaught
`AttributeError`, a server error. -/
theorem c5_counterexample :
    resolveFeatureData "null" = TokenOutcome.serverError ∧
    ∀ d, resolveFeatureData "null" ≠ TokenOutcome.clientError d := by
  refine ⟨rfl, fun d h => ?_⟩
  rw [show resolveFeatureData "null" = TokenOutcome.serverError from rfl] at h
  exact TokenOutcome.noConfusion h

/-- C5 (amended): the endpoint accepts the token as a bare identifier string
(any non-JSON string, wrapped as `{"task_id": ...}`) and as a JSON object
embedding a truthy `task_id`; a JSON object without a usable `task_id` is
rejected with the 400 client error; but a token parsing to a JSON non-object
(null, boolean, number, array, or quoted string) raises an uncaught
`AttributeError` — a server error, not a 400. -/
theorem c5_token_shapes (s : String) (fields : List (String × JValue)) :
    (jsonLoads s = none → s ≠ "" → stripQuotes s ≠ "" →
      resolveFeatureData s = .ok (JValue.obj [("task_id", .str (stripQuotes s))])) ∧
    (jsonLoads s = some (.obj fields) → s ≠ "" →
      (∀ tv, objGet fields "task_id" = some tv → truthy tv = true →
        resolveFeatureData s = .ok (.obj fields)) ∧
      (objGet fields "task_id" = none →
        resolveFeatureData s = .clientError "Invalid feature data format") ∧
      (∀ tv, objGet fields "task_id" = some tv → truthy tv = false →
        resolveFeatureData s = .clientError "Invalid feature data format")) ∧
    (∀ v, jsonLoads s = some v → s ≠ "" →
      (match v with
        | .obj _ => False
        | _ => True) →
      resolveFeatureData s = .serverError) := by
  refine ⟨fun hj hs hq => ?_, fun hj hs => ⟨fun tv htv ht => ?_, fun htv => ?_, fun tv htv ht => ?_⟩,
    fun v hj hs hv => ?_⟩
  · simp [resolveFeatureData, hj, hs, hq]
  · simp [resolveFeatureData, hj, hs, htv, ht]
  · simp [resolveFeatureData, hj, hs, htv]
  · simp [resolveFeatureData, hj, hs, htv, ht]
  · cases v <;> simp_all [resolveFeatureData]

/-- Witness for C5 (amended): a bare identifier and a JSON-object token. -/
theorem c5_token_shapes_witness :
    resolveFeatureData "tok-1" = .ok (JValue.obj [("task_id", .str "tok-1")]) ∧
    resolveFeatureData "\x7b\"task_id\": \"abc\"\x7d" =
      .ok (.obj [("task_id", .str "abc")]) :=
  ⟨by
    have h := (c5_token_shapes "tok-1" []).1 (by rfl) (by decide) (by decide)
    simpa using h,
   by
    have h := (((c5_token_shapes "\x7b\"task_id\": \"abc\"\x7d"
      [("task_id", .str "abc")]).2.1 (by rfl) (by decide)).1 (.str "abc") rfl rfl)
    exact h⟩

/-! ## The fusion pipeline (`app/celeryworker/tasks.py`) as world transitions

The four Celery tasks are embedded as transitions on an explicit `World`
carrying the filesystem entries, the uploaded Google Drive artifacts, and
the two database tables involved.  A raising task yields `.error` with the
world as left by its handler (`update_state(state="FAILURE")` touches only
Celery task meta, which the claims do not mention, so it is not part of the
world).  Downloads and metadata fetches are taken to succeed; the failure
points the claims exercise — the separation engine, the feature extractor,
`musicgen.generate`, and the Drive upload — are injected through
`StageFails`.  Scalar feature values and prompt-string formatting are
abstracted (no claim depends on them): the context only records that the
`"features"` key is present. -/

/-- A row of the `fusions` table (`app/db/models/fusion.py`). -/
structure FusionRec where
  id : Nat
  track1_id : Int
  track2_id : Int
  project_id : Int
  user_id : Int
  duration : Int
  temperature : ℚ
  prompt_guidance : ℚ
  custom_prompt : Option String
  generated_prompt : Option String
  output_filename : Option String
  output_path : Option String
  gdrive_file_id : Option String
  task_id : Option String
  status : String
  error_message : Option String
  progress : Int
  output_track_id : Option Nat
deriving Repr, DecidableEq

/-- The worker-side world: existing filesystem paths, Drive uploads
`(file id, name)`, and the `audio_files` / `fusions` tables with their id
allocators. -/
structure World where
  fs : List String
  uploads : List (String × String)
  audio_files : List AudioRec
  fusions : List FusionRec
  nextAudioId : Nat
  nextFusionId : Nat
deriving Repr, DecidableEq

def addFile (w : World) (p : String) : World := { w with fs := p :: w.fs }

def addFiles (w : World) (ps : List String) : World := { w with fs := ps ++ w.fs }

/-- `shutil.rmtree(dir, ignore_errors=True)`: the directory and everything
under it disappear; errors are swallowed. -/
def removeTree (w : World) (dir : String) : World :=
  { w with fs := w.fs.filter (fun p => !(p == dir || p.startsWith (dir ++ "/"))) }

/-- Failure injection for the external calls made by the four tasks. -/
structure StageFails where
  separationFails : Bool
  extractionFails : Bool
  generateFails : Bool
  uploadFails : Bool
deriving Repr, DecidableEq

/-- Generation parameters threaded from the request into `generate_fusion`. -/
structure PipelineParams where
  duration : Int
  temperature : ℚ
  prompt_guidance : ℚ
  custom_prompt : Option String
deriving Repr, DecidableEq

/-- The payload dict passed from task to task (each task returns
`{**input, ...}`). -/
structure Ctx where
  stem_dir : String
  project_id : Int
  user_id : Int
  track1_gdrive : String
  track2_gdrive : String
  hasFeatures : Bool
  fusion_track_path : Option String
  fusion_filename : Option String
deriving Repr, DecidableEq

/-- The scratch directory `temp_stems/fusion_<uuid>` created by
`stem_separation`. -/
def stemDirOf (uuid : String) : String := "temp_stems/fusion_" ++ uuid

/-- The stem files Demucs leaves under the scratch directory
(`--two-stems=vocals` produces `vocals.wav` and `no_vocals.wav` per track). -/
def stemPaths (sd track1Id track2Id : String) : List String :=
  [sd ++ "/track1/htdemucs/track1_" ++ track1Id ++ "/vocals.wav",
   sd ++ "/track1/htdemucs/track1_" ++ track1Id ++ "/no_vocals.wav",
   sd ++ "/track2/htdemucs/track2_" ++ track2Id ++ "/vocals.wav",
   sd ++ "/track2/htdemucs/track2_" ++ track2Id ++ "/no_vocals.wav"]

/-- Task 1, `stem_separation`: download both tracks, create the scratch stem
directory, run Demucs on each track, and return the context.  On a
separation failure the task raises after the downloads and the directory
creation; nothing is cleaned up. -/
def stemSeparation (uuid track1Id track2Id : String) (projectId userId : Int)
    (fails : StageFails) (w : World) : Except World (World × Ctx) :=
  let w1 := addFile w ("uploaded_tracks/track1_" ++ track1Id ++ ".wav")
  let w2 := addFile w1 ("uploaded_tracks/track2_" ++ track2Id ++ ".wav")
  let sd := stemDirOf uuid
  let w3 := addFile w2 sd
  if fails.separationFails then .error w3
  else
    .ok (addFiles w3 (stemPaths sd track1Id track2Id),
      { stem_dir := sd, project_id := projectId, user_id := userId,
        track1_gdrive := track1Id, track2_gdrive := track2Id,
        hasFeatures := false, fusion_track_path := none,
        fusion_filename := none })

/-- Task 2, `feature_extraction`: extract and aggregate per-stem features
(values abstracted) and return the context extended with the `"features"`
key.  A failing extractor raises with no world change. -/
def featureExtraction (ctx : Ctx) (fails : StageFails) (w : World) :
    Except World (World × Ctx) :=
  if fails.extractionFails then .error w
  else .ok (w, { ctx with hasFeatures := true })

/-- Task 3, `generate_fusion`: build the prompt from
`feature_data["features"]` (a missing key raises), clamp duration and
guidance, and have MusicGen write `generated_tracks/fusion_<uuid>.wav`.  On
a generation failure the task raises with no file written and NO cleanup:
the stem directory stays on disk and the database is untouched.  The params
are accepted (temperature included) but only duration and guidance reach
the model — see `genCallOf`. -/
def generateFusion (uuid : String) (params : PipelineParams) (ctx : Ctx)
    (fails : StageFails) (w : World) : Except World (World × Ctx) :=
  if !ctx.hasFeatures then .error w
  else if fails.generateFails then .error w
  else
    let fusionFilename := "fusion_" ++ uuid ++ ".wav"
    let fusionTrackPath := "generated_tracks/" ++ fusionFilename
    .ok (addFile w fusionTrackPath,
      { ctx with fusion_track_path := some fusionTrackPath,
                 fusion_filename := some fusionFilename })

/-- `str.replace(".wav", "_enhanced.wav")`: replace every (leftmost,
non-overlapping) occurrence of `".wav"`. -/
def replaceWavChars : List Char → List Char
  | '.' :: 'w' :: 'a' :: 'v' :: rest =>
    '_' :: 'e' :: 'n' :: 'h' :: 'a' :: 'n' :: 'c' :: 'e' :: 'd' ::
      '.' :: 'w' :: 'a' :: 'v' :: replaceWavChars rest
  | c :: rest => c :: replaceWavChars rest
  | [] => []

/-- `str.endswith(".wav")`. -/
def endsWithWav (s : String) : Bool :=
  s.toList.reverse.take 4 == ['v', 'a', 'w', '.']

/-- `fusion_filename.replace(".wav", "_enhanced.wav")` followed by the
`endswith(".wav")` fix-up. -/
def enhancedFilename (f : String) : String :=
  let e := String.mk (replaceWavChars f.toList)
  if endsWithWav e then e else e ++ ".wav"

/-- Task 4, `enhance_audio`: load and enhance the fusion track, write
`*_enhanced.wav`, upload it to Drive, insert a new `AudioFile` row (the
model's `status` default `"PENDING"`; the pending record created by the
endpoint is NOT updated), and delete the stem directory.  On failure the
`except` clause deletes the stem directory and re-raises. -/
def enhanceAudio (ctx : Ctx) (fails : StageFails) (w : World) :
    Except World (World × Nat) :=
  match ctx.fusion_track_path, ctx.fusion_filename with
  | some _, some fname =>
    let ename := enhancedFilename fname
    let epath := "generated_tracks/" ++ ename
    let w1 := addFile w epath
    if fails.uploadFails then .error (removeTree w1 ctx.stem_dir)
    else
      let gid := "gdrive-" ++ ename
      let w2 := { w1 with uploads := (gid, ename) :: w1.uploads }
      let rec1 : AudioRec :=
        { id := w2.nextAudioId, filename := ename, gdrive_file_id := gid,
          proj_id := ctx.project_id, user_id := ctx.user_id,
          is_fusion := true,
          source_track1_id := some (.inr ctx.track1_gdrive),
          source_track2_id := some (.inr ctx.track2_gdrive),
          fusion_metadata := some "fusion-metadata-json",
          status := "PENDING", task_id := none }
      let w3 := { w2 with audio_files := w2.audio_files ++ [rec1],
                          nextAudioId := w2.nextAudioId + 1 }
      .ok (removeTree w3 ctx.stem_dir, rec1.id)
  | _, _ => .error (removeTree w ctx.stem_dir)

/-- Names of the four pipeline stages. -/
inductive StageName where
  | stemSeparationStage
  | featureExtractionStage
  | generateFusionStage
  | enhanceAudioStage
deriving Repr, DecidableEq

/-- Result of running the (composed) four-stage pipeline chain. -/
inductive ChainResult where
  | completed (w : World) (newRecId : Nat)
  | failed (w : World) (stage : StageName)
deriving Repr, DecidableEq

def ChainResult.world : ChainResult → World
  | .completed w _ => w
  | .failed w _ => w

/-- The four-stage pipeline `stem_separation → feature_extraction →
generate_fusion → enhance_audio` under Celery `chain` semantics: a raising
task aborts the chain, later tasks never run. -/
def runFusionPipeline (uuidSep uuidGen track1Id track2Id : String)
    (projectId userId : Int) (params : PipelineParams) (fails : StageFails)
    (w : World) : ChainResult :=
  match stemSeparation uuidSep track1Id track2Id projectId userId fails w with
  | .error w1 => .failed w1 .stemSeparationStage
  | .ok (w1, ctx1) =>
    match featureExtraction ctx1 fails w1 with
    | .error w2 => .failed w2 .featureExtractionStage
    | .ok (w2, ctx2) =>
      match generateFusion uuidGen params ctx2 fails w2 with
      | .error w3 => .failed w3 .generateFusionStage
      | .ok (w3, ctx3) =>
        match enhanceAudio ctx3 fails w3 with
        | .error w4 => .failed w4 .enhanceAudioStage
        | .ok (w4, recId) => .completed w4 recId

/-! ## Fusion API endpoints (`app/api/fusion.py`) over the world state -/

/-- The ownership query both submission endpoints run per track:
`AudioFile.id == track_id AND AudioFile.user_id == current_user.id`. -/
def findAudio (w : World) (trackId : Int) (userId : Int) : Option AudioRec :=
  w.audio_files.find? (fun r => ((r.id : Int) == trackId) && r.user_id == userId)

/-- Outcome of `POST /prepare-prompt/`. -/
inductive PrepareOutcome where
  | httpError (code : Nat) (detail : String)
  /-- New world, new `fusions` row id, the `feature_data` task id returned
  to the client, and the dispatched Celery chain. -/
  | ok (w : World) (fusionId : Nat) (featureDataTaskId : String)
       (dispatched : List StageName)
deriving Repr, DecidableEq

/-- `prepare_fusion_prompt`: verify both tracks belong to the caller (404
otherwise), insert a `fusions` row (status PENDING, progress 0), dispatch
`chain(stem_separation, feature_extraction)`, then set the row's `task_id`
and flip its status to PROCESSING.  The response embeds
`feature_data = {"task_id": <celery id>}`. -/
def prepareFusionPrompt (req : FusionRequestIn) (userId : Int)
    (taskId : String) (w : World) : PrepareOutcome :=
  match findAudio w req.track1_id userId, findAudio w req.track2_id userId with
  | some _, some _ =>
    let f : FusionRec :=
      { id := w.nextFusionId, track1_id := req.track1_id,
        track2_id := req.track2_id, project_id := req.proj_id,
        user_id := userId, duration := req.duration,
        temperature := req.temperature,
        prompt_guidance :=
          -- `fusion_request.prompt_guidance or 3.0`: Python `or` replaces a
          -- falsy (zero/None) guidance with 3.0
          if req.prompt_guidance = 0 then 3 else req.prompt_guidance,
        custom_prompt := req.custom_prompt, generated_prompt := none,
        output_filename := none, output_path := none, gdrive_file_id := none,
        task_id := some taskId, status := "processing", error_message := none,
        progress := 0, output_track_id := none }
    .ok { w with fusions := w.fusions ++ [f], nextFusionId := w.nextFusionId + 1 }
      f.id taskId [.stemSeparationStage, .featureExtractionStage]
  | _, _ => .httpError 404 "One or both tracks not found"

/-- The pending `AudioFile` row inserted by `generate_fusion_track`
(placeholder filename and Drive id derived from the Celery task id, status
`FusionStatusEnum.PENDING.value = "pending"`, source track ids from the two
looked-up rows). -/
def pendingRecOf (taskId : String) (projId userId : Int) (t1 t2 : AudioRec)
    (nid : Nat) : AudioRec :=
  { id := nid, filename := "fusion_pending_" ++ taskId ++ ".wav",
    gdrive_file_id := "pending_" ++ taskId, proj_id := projId,
    user_id := userId, is_fusion := true,
    source_track1_id := some (.inl (t1.id : Int)),
    source_track2_id := some (.inl (t2.id : Int)),
    fusion_metadata := none, status := "pending", task_id := some taskId }

/-- Outcome of `POST /generate/`. -/
inductive GenerateOutcome where
  | httpError (code : Nat) (detail : String)
  /-- An exception no handler catches (HTTP 500). -/
  | serverError
  /-- New world, response record id and status, task id, and the dispatched
  Celery chain. -/
  | accepted (w : World) (respId : Nat) (respStatus : String)
             (taskId : String) (dispatched : List StageName)
deriving Repr, DecidableEq

/-- `generate_fusion_track`: verify track ownership (404), resolve
`feature_data_json` (see `resolveFeatureData`), dispatch
`chain(generate_fusion, enhance_audio)` — the prefix stages are NOT part of
the chain — and insert a fresh pending `AudioFile` row referencing the
source tracks.  The existing rows, in particular the prefix run's `fusions`
row, are never touched. -/
def generateFusionTrack (track1Id track2Id : Int) (projId : Int)
    (params : PipelineParams) (featureDataJson : String) (userId : Int)
    (taskId : String) (w : World) : GenerateOutcome :=
  match findAudio w track1Id userId, findAudio w track2Id userId with
  | some t1, some t2 =>
    match resolveFeatureData featureDataJson with
    | .clientError d => .httpError 400 d
    | .serverError => .serverError
    | .ok _ =>
      let r : AudioRec := pendingRecOf taskId projId userId t1 t2 w.nextAudioId
      .accepted
        { w with audio_files := w.audio_files ++ [r],
                 nextAudioId := w.nextAudioId + 1 }
        r.id "pending" taskId [.generateFusionStage, .enhanceAudioStage]
  | _, _ => .httpError 404 "One or both tracks not found"

/-- Outcome of `GET /status/{fusion_id}`. -/
inductive StatusOutcome where
  | notFound
  /-- `FusionStatus(..., progress=fusion_track.progress, ...)`: the
  `AudioFile` model declares no `progress`, `error_message` or
  `completed_at` attribute, so building the response raises
  `AttributeError` — an uncaught server error — for every record found. -/
  | serverError
deriving Repr, DecidableEq

/-- `get_fusion_status` over the declared `AudioFile` columns. -/
def getFusionStatus (w : World) (fusionId : Nat) (userId : Int) :
    StatusOutcome :=
  match findFusionTrack w.audio_files fusionId userId with
  | none => .notFound
  | some _ => .serverError

/-! ### Helper lemmas for the world transitions -/

theorem removeTree_self_not_mem (w : World) (d : String) :
    d ∉ (removeTree w d).fs := by
  simp [removeTree, List.mem_filter]

theorem find?_append_of_some {α : Type} (p : α → Bool) (l₁ l₂ : List α)
    (a : α) (h : l₁.find? p = some a) : (l₁ ++ l₂).find? p = some a := by
  induction l₁ with
  | nil => simp [List.find?] at h
  | cons x xs ih =>
    by_cases hp : p x = true
    · rw [List.find?_cons_of_pos _ hp] at h
      rw [List.cons_append, List.find?_cons_of_pos _ hp]
      exact h
    · rw [List.find?_cons_of_neg _ (by simpa using hp)] at h
      rw [List.cons_append, List.find?_cons_of_neg _ (by simpa using hp)]
      exact ih h

/-- C1 counterexample: with the pending job record in place, a failure in
stage 3 of 4 (`generate_fusion`) leaves the record's status at `"pending"`
(never FAILED, no error message persisted — the record has no such column
update anywhere in the task), leaves the stem directory produced by stages
1–2 on disk, and uploads nothing; thus the claim's "persists FAILED and
deletes the working directory" is false at this input (only the "no
artifact uploaded" half holds). -/
theorem c1_counterexample :
    ∃ w', runFusionPipeline "u1" "u2" "gd1" "gd2" 1 2
        ⟨15, 1, 3, none⟩ ⟨false, false, true, false⟩
        ⟨[], [], [⟨1, "fusion_pending_t9.wav", "pending_t9", 1, 2, true,
          none, none, none, "pending", some "t9"⟩], [], 2, 1⟩ =
      ChainResult.failed w' .generateFusionStage ∧
      stemDirOf "u1" ∈ w'.fs ∧
      (∀ r ∈ w'.audio_files, r.status = "pending") ∧
      w'.uploads = [] := by
  refine ⟨_, rfl, ?_, ?_, rfl⟩
  · simp [stemSeparation, addFile, addFiles, stemDirOf, stemPaths]
  · intro r hr
    simp only [stemSeparation, addFile, addFiles] at hr
    simp only [List.mem_singleton] at hr
    subst hr
    rfl

/-- C1 (amended): on a stage failure the chain aborts — no later stage
runs, nothing is uploaded, and the database is untouched (the job record is
NOT set to FAILED and no error message is persisted; the failure is
recorded only in Celery task state).  The working stem directory is deleted
only by `enhance_audio`'s failure handler: a failure in stage 3
(`generate_fusion`) leaves it on disk, while a failure in stage 4
(the Drive upload inside `enhance_audio`) removes it. -/
theorem c1_stage_failure_behavior (uuidSep uuidGen t1 t2 : String)
    (proj uid : Int) (params : PipelineParams) (w : World) :
    (∃ w', runFusionPipeline uuidSep uuidGen t1 t2 proj uid params
        ⟨false, false, true, false⟩ w = ChainResult.failed w' .generateFusionStage ∧
      w'.audio_files = w.audio_files ∧ w'.fusions = w.fusions ∧
      w'.uploads = w.uploads ∧ stemDirOf uuidSep ∈ w'.fs) ∧
    (∃ w', runFusionPipeline uuidSep uuidGen t1 t2 proj uid params
        ⟨false, false, false, true⟩ w = ChainResult.failed w' .enhanceAudioStage ∧
      w'.audio_files = w.audio_files ∧ w'.fusions = w.fusions ∧
      w'.uploads = w.uploads ∧ stemDirOf uuidSep ∉ w'.fs) := by
  constructor
  · refine ⟨_, rfl, ?_, ?_, ?_, ?_⟩
    · rfl
    · rfl
    · rfl
    · show stemDirOf uuidSep ∈
        (addFiles (addFile (addFile (addFile w ("uploaded_tracks/track1_" ++ t1 ++ ".wav"))
            ("uploaded_tracks/track2_" ++ t2 ++ ".wav")) (stemDirOf uuidSep))
          (stemPaths (stemDirOf uuidSep) t1 t2)).fs
      simp [addFiles, addFile]
  · refine ⟨_, rfl, ?_, ?_, ?_, ?_⟩
    · rfl
    · rfl
    · rfl
    · exact removeTree_self_not_mem _ _

/-- C4: resuming the same continuation token twice (with possibly different
suffix parameters) creates two new, independent `AudioFile` job records —
appended to the table, with distinct ids — dispatches only the suffix
chain `[generate_fusion, enhance_audio]` both times (the prefix stages
`stem_separation` / `feature_extraction` are not re-executed), and never
mutates any pre-existing row; in particular the prefix run's `fusions`
record is untouched. -/
theorem c4_resume_twice_independent (track1Id track2Id proj uid : Int)
    (p1 p2 : PipelineParams) (fdj1 fdj2 tidA tidB : String) (w : World)
    (h1 : (findAudio w track1Id uid).isSome)
    (h2 : (findAudio w track2Id uid).isSome)
    (hf1 : ∃ fd, resolveFeatureData fdj1 = TokenOutcome.ok fd)
    (hf2 : ∃ fd, resolveFeatureData fdj2 = TokenOutcome.ok fd) :
    ∃ w1 w2 recA recB,
      generateFusionTrack track1Id track2Id proj p1 fdj1 uid tidA w =
        GenerateOutcome.accepted w1 recA.id "pending" tidA
          [StageName.generateFusionStage, StageName.enhanceAudioStage] ∧
      generateFusionTrack track1Id track2Id proj p2 fdj2 uid tidB w1 =
        GenerateOutcome.accepted w2 recB.id "pending" tidB
          [StageName.generateFusionStage, StageName.enhanceAudioStage] ∧
      w1.audio_files = w.audio_files ++ [recA] ∧
      w2.audio_files = w.audio_files ++ [recA, recB] ∧
      recA.id ≠ recB.id ∧
      w1.fusions = w.fusions ∧ w2.fusions = w.fusions := by
  obtain ⟨t1r, ht1⟩ := Option.isSome_iff_exists.mp h1
  obtain ⟨t2r, ht2⟩ := Option.isSome_iff_exists.mp h2
  obtain ⟨fd1, hfd1⟩ := hf1
  obtain ⟨fd2, hfd2⟩ := hf2
  set recA := pendingRecOf tidA proj uid t1r t2r w.nextAudioId with hrecA
  set w1 := { w with audio_files := w.audio_files ++ [recA],
                     nextAudioId := w.nextAudioId + 1 } with hw1
  have ht1' : findAudio w1 track1Id uid = some t1r :=
    find?_append_of_some _ _ _ _ ht1
  have ht2' : findAudio w1 track2Id uid = some t2r :=
    find?_append_of_some _ _ _ _ ht2
  set recB := pendingRecOf tidB proj uid t1r t2r w1.nextAudioId with hrecB
  set w2 := { w1 with audio_files := w1.audio_files ++ [recB],
                      nextAudioId := w1.nextAudioId + 1 } with hw2
  refine ⟨w1, w2, recA, recB, ?_, ?_, rfl, ?_, ?_, rfl, rfl⟩
  · simp only [generateFusionTrack, ht1, ht2, hfd1]
  · simp only [generateFusionTrack, ht1', ht2', hfd2]
  · simp [hw2, hw1, List.append_assoc]
  · simp [hrecA, hrecB, hw1, pendingRecOf]

/-- C6 counterexample: run the whole pipeline to successful completion with
the prepare-created `fusions` row (progress 0) and the pending record in
place.  The claim requires the persisted progress to have been advanced to
`round(100·k/4)` after each stage — 100 by completion — but every persisted
progress is still 0, and polling the status endpoint on the pending job
record does not return any progress at all: it dies with a server error
(the `AudioFile` model has no `progress` attribute). -/
theorem c6_counterexample :
    ∃ w' rid, runFusionPipeline "u1" "u2" "gd1" "gd2" 1 2
        ⟨15, 1, 3, none⟩ ⟨false, false, false, false⟩
        ⟨[], [], [⟨1, "fusion_pending_t9.wav", "pending_t9", 1, 2, true,
          none, none, none, "pending", some "t9"⟩],
         [⟨1, 10, 11, 1, 2, 15, 1, 3, none, none, none, none, none,
           some "t9", "processing", none, 0, none⟩], 2, 2⟩ =
      ChainResult.completed w' rid ∧
      (∀ f ∈ w'.fusions, f.progress = 0) ∧
      getFusionStatus w' 1 2 = StatusOutcome.serverError := by
  refine ⟨_, _, rfl, ?_, ?_⟩
  · intro f hf
    simp only [stemSeparation, featureExtraction, generateFusion,
      enhanceAudio, addFile, addFiles, removeTree] at hf
    simp only [List.mem_singleton] at hf
    subst hf
    rfl
  · rfl

/-- C6 (amended): no pipeline stage writes any persisted progress — the
`fusions` table is never touched by the four tasks (its `progress` stays
whatever it was, trivially non-decreasing over any poll sequence), the
pending `AudioFile` has no progress column at all, and the status endpoint
answers 404 or crashes with a server error for every query, so no poll ever
observes `round(100·completed/total)`. -/
theorem c6_progress_never_advanced (uuidSep uuidGen t1 t2 : String)
    (proj uid : Int) (params : PipelineParams) (fails : StageFails)
    (w : World) :
    (runFusionPipeline uuidSep uuidGen t1 t2 proj uid params fails w).world.fusions
      = w.fusions ∧
    (∀ fid userId, getFusionStatus w fid userId = StatusOutcome.notFound ∨
      getFusionStatus w fid userId = StatusOutcome.serverError) := by
  constructor
  · unfold runFusionPipeline stemSeparation featureExtraction generateFusion
      enhanceAudio
    cases hsep : fails.separationFails <;>
      cases hext : fails.extractionFails <;>
        cases hgen : fails.generateFails <;>
          cases hup : fails.uploadFails <;>
            simp [hsep, hext, hgen, hup, addFile, addFiles, removeTree,
              ChainResult.world]
  · intro fid userId
    unfold getFusionStatus
    cases findFusionTrack w.audio_files fid userId with
    | none => exact Or.inl rfl
    | some r => exact Or.inr rfl

/-! ## The reaper (`cleanup_temp_files` in `app/celeryworker/tasks.py`,
beat schedule in `app/celeryworker/worker.py`) -/

/-- One entry of `os.listdir(TEMP_STEMS_DIR)` with the facts the sweep
consults: whether it is a directory, its `st_mtime`, and whether `os.stat`
raises for it (the only call inside the per-entry `try` that can fail —
`shutil.rmtree` is invoked with `ignore_errors=True`). -/
structure DirEntry where
  name : String
  isDir : Bool
  mtime : Int
  statFails : Bool
deriving Repr, DecidableEq

/-- The retention threshold `86400` seconds (24 hours) hard-coded in
`cleanup_temp_files`. -/
def retentionSeconds : Int := 86400

/-- The beat schedule interval for `cleanup-temp-files` in
`worker.py`: `"schedule": 3600.0` (hourly). -/
def cleanupBeatScheduleSeconds : Int := 3600

/-- `cleanup_temp_files`: walk the scratch root; for each directory, stat it
(an exception is logged and the sweep continues with the next entry) and
delete it when `current_time - st_mtime > 86400`; non-directories are left
alone.  The function consults no job record.  Returns the surviving
entries. -/
def cleanupTempFiles (currentTime : Int) (entries : List DirEntry) :
    List DirEntry :=
  entries.filter (fun e =>
    if e.isDir then
      if e.statFails then true
      else !(decide (currentTime - e.mtime > retentionSeconds))
    else true)

/-! ## `generate_music_with_stems` (`app/services/music_generation.py`) -/

/-- Outcome of one attempt of the retry loop: `replicate.run` raises, or it
returns an output list whose first URL downloads with the given HTTP
status. -/
inductive ReplicateAttempt where
  | runRaises
  | output (urls : List String) (dlStatus : Nat)
deriving Repr, DecidableEq

/-- The `output_paths` dict: one path per stem type — mix, drums, bass,
other — built up front regardless of what is actually produced. -/
def stemOutputPaths (outputDir base : String) : List (String × String) :=
  [("mix", outputDir ++ "/" ++ base ++ "_mix.wav"),
   ("drums", outputDir ++ "/" ++ base ++ "_drums.wav"),
   ("bass", outputDir ++ "/" ++ base ++ "_bass.wav"),
   ("other", outputDir ++ "/" ++ base ++ "_other.wav")]

/-- The `for attempt in range(max_retries)` loop of
`generate_music_with_stems`: an empty/invalid output or a non-200 download
raises and retries until the attempts are exhausted (then the exception
propagates); a 200 download writes ONLY the mix file and returns the whole
four-path dict.  No per-stem bookkeeping exists anywhere. -/
def genStemsAttempts (outputDir base : String) (w : World) :
    List ReplicateAttempt → Except String (World × List (String × String))
  | [] => .error "Failed to generate music after multiple attempts"
  | a :: rest =>
    match a with
    | .runRaises =>
      if rest.isEmpty then .error "replicate.run raised"
      else genStemsAttempts outputDir base w rest
    | .output urls st =>
      match urls with
      | [] =>
        if rest.isEmpty then .error "Unexpected output format from Replicate"
        else genStemsAttempts outputDir base w rest
      | _ :: _ =>
        if st == 200 then
          .ok (addFile w (outputDir ++ "/" ++ base ++ "_mix.wav"),
            stemOutputPaths outputDir base)
        else if rest.isEmpty then .error "Failed to download audio file"
        else genStemsAttempts outputDir base w rest

/-- `generate_music_with_stems`, with the outer `except` wrapping any
failure into `Exception(f"Error generating music with stems: ...")` —
the whole stage raises; no partial per-stem status is recorded. -/
def generateMusicWithStems (outputDir base : String)
    (attempts : List ReplicateAttempt) (w : World) :
    Except String (World × List (String × String)) :=
  match genStemsAttempts outputDir base w attempts with
  | .error e => .error ("Error generating music with stems: " ++ e)
  | .ok r => .ok r

/-! ## The mix-stems endpoint (`app/api/mixed_track.py`) -/

/-- A `generated_music` row, restricted to the columns the endpoint reads. -/
structure GeneratedMusicRec where
  id : Nat
  proj_id : Int
  user_id : Int
  status : String
deriving Repr, DecidableEq

/-- A row of the stems table.  The `Stem` model module itself is not under
the source tree; its shape here is taken from its uses in
`api/mixed_track.py` (`generated_music_id`, `stem_type`). -/
structure StemRow where
  id : Nat
  generated_music_id : Nat
  stem_type : String
deriving Repr, DecidableEq

/-- A `mixed_tracks` row (`app/db/models/mixed_track.py`). -/
structure MixedTrackRec where
  id : Nat
  generated_music_id : Nat
  proj_id : Int
  user_id : Int
  selected_stems : List String
  volume_levels : Option (List (String × ℚ))
  filename : String
  status : String
  task_id : Option String
deriving Repr, DecidableEq

/-- The database slice the endpoint touches: projects `(id, owner)`,
generated-music rows, stem rows, mixed-track rows. -/
structure MixDb where
  projects : List (Int × Int)
  generated : List GeneratedMusicRec
  stems : List StemRow
  mixed : List MixedTrackRec
  nextMixedId : Nat
deriving Repr, DecidableEq

/-- `MixedTrackCreate` request body. -/
structure MixRequest where
  proj_id : Int
  generated_music_id : Nat
  selected_stems : List String
  volume_levels : Option (List (String × ℚ))
deriving Repr, DecidableEq

/-- Outcome of `POST /mix-stems`. -/
inductive MixOutcome where
  /-- 404 "Project not found or you don't have access to it". -/
  | notFoundProject
  /-- 404 "Generated music not found". -/
  | notFoundGeneratedMusic
  /-- 400 "Generated music is not ready for mixing (status: ...)". -/
  | notReady (status : String)
  /-- 403 "You don't have access to this generated music". -/
  | forbidden
  /-- 400 "Some requested stems are not available: {missing}"; raised
  before any record is created or task dispatched. -/
  | missingStems (missing : List String)
  /-- Record inserted (status pending) and `mix_stems` task dispatched. -/
  | accepted (db : MixDb) (recId : Nat)
deriving Repr, DecidableEq

/-- The availability query: stems of this generated music whose type is
among the selected ones. -/
def availableStemsFor (db : MixDb) (gmId : Nat) (selected : List String) :
    List StemRow :=
  db.stems.filter (fun s =>
    s.generated_music_id == gmId && selected.contains s.stem_type)

/-- `create_mixed_track`: ownership and readiness guards, then the
stem-availability check — if the count of available stems differs from the
count of selected ones, answer 400 naming the missing stem types; otherwise
insert the record and dispatch the mixing task. -/
def createMixedTrack (req : MixRequest) (userId : Int)
    (mixFilename taskId : String) (db : MixDb) : MixOutcome :=
  match db.projects.find? (fun p => p.1 == req.proj_id && p.2 == userId) with
  | none => .notFoundProject
  | some _ =>
    match db.generated.find? (fun g => g.id == req.generated_music_id) with
    | none => .notFoundGeneratedMusic
    | some gm =>
      if gm.status ≠ "completed" then .notReady gm.status
      else if gm.user_id ≠ userId then .forbidden
      else
        let available := availableStemsFor db req.generated_music_id
          req.selected_stems
        if available.length ≠ req.selected_stems.length then
          let availableTypes := available.map (·.stem_type)
          .missingStems (req.selected_stems.filter
            (fun t => !availableTypes.contains t))
        else
          let r : MixedTrackRec :=
            { id := db.nextMixedId,
              generated_music_id := req.generated_music_id,
              proj_id := req.proj_id, user_id := userId,
              selected_stems := req.selected_stems,
              volume_levels := req.volume_levels, filename := mixFilename,
              status := "pending", task_id := some taskId }
          .accepted
            { db with mixed := db.mixed ++ [r],
                      nextMixedId := db.nextMixedId + 1 } r.id

/-- An attempt that makes the retry loop raise: `replicate.run` raising, an
empty output list, or a failed download. -/
def failedAttempt : ReplicateAttempt → Bool
  | .runRaises => true
  | .output [] _ => true
  | .output (_ :: _) st => !(st == 200)

/-- C9: the reaper deletes exactly the directories under the scratch root
whose age exceeds the 24-hour retention threshold — it consults no job
record (the function takes no database input at all) — non-directories are
untouched, a per-directory stat failure is logged and the sweep continues
with the remaining entries unchanged in behavior, and the beat schedule
runs it hourly with the 24h threshold. -/
theorem c9_reaper_sweep (now : Int) (entries pre post : List DirEntry)
    (e : DirEntry) (hok : ∀ x ∈ entries, x.statFails = false)
    (hdir : e.isDir = true) (hfail : e.statFails = true) :
    cleanupTempFiles now entries = entries.filter
      (fun x => !(x.isDir && decide (now - x.mtime > retentionSeconds))) ∧
    cleanupTempFiles now (pre ++ e :: post) =
      cleanupTempFiles now pre ++ e :: cleanupTempFiles now post ∧
    cleanupBeatScheduleSeconds = 3600 ∧ retentionSeconds = 86400 := by
  refine ⟨?_, ?_, rfl, rfl⟩
  · apply List.filter_congr
    intro x hx
    rw [hok x hx]
    cases hd : x.isDir <;> simp
  · unfold cleanupTempFiles
    rw [List.filter_append, List.filter_cons, if_pos (by simp [hdir, hfail])]

/-- Witness for C9: a stale directory is removed, a fresh directory and a
plain file survive, and a directory whose stat fails is skipped while the
sweep continues. -/
theorem c9_reaper_sweep_witness :
    ((∀ x ∈ [(⟨"fusion_a", true, 0, false⟩ : DirEntry),
        ⟨"fusion_b", true, 99999, false⟩, ⟨"notes.txt", false, 0, false⟩],
        x.statFails = false) ∧
      (⟨"fusion_bad", true, 0, true⟩ : DirEntry).isDir = true ∧
      (⟨"fusion_bad", true, 0, true⟩ : DirEntry).statFails = true) ∧
    (cleanupTempFiles 100000 [⟨"fusion_a", true, 0, false⟩,
        ⟨"fusion_b", true, 99999, false⟩, ⟨"notes.txt", false, 0, false⟩] =
      [⟨"fusion_a", true, 0, false⟩, ⟨"fusion_b", true, 99999, false⟩,
        ⟨"notes.txt", false, 0, false⟩].filter
        (fun x => !(x.isDir && decide (100000 - x.mtime > retentionSeconds))) ∧
      cleanupTempFiles 100000 ([⟨"fusion_a", true, 0, false⟩] ++
          (⟨"fusion_bad", true, 0, true⟩ : DirEntry) ::
          [⟨"fusion_b", true, 0, false⟩]) =
        cleanupTempFiles 100000 [⟨"fusion_a", true, 0, false⟩] ++
          (⟨"fusion_bad", true, 0, true⟩ : DirEntry) ::
          cleanupTempFiles 100000 [⟨"fusion_b", true, 0, false⟩] ∧
      cleanupBeatScheduleSeconds = 3600 ∧ retentionSeconds = 86400) :=
  ⟨⟨by decide, rfl, rfl⟩,
    c9_reaper_sweep 100000 _ _ _ _ (by decide) rfl rfl⟩

/-- C7 counterexample: a successful `generate_music_with_stems` call
returns one path for each of the four stem types, but only the mix file is
ever written — the drums/bass/other artifacts do not exist — so the stage
does not produce one artifact per stem type, and there is no per-stem
success bookkeeping anywhere in it. -/
theorem c7_counterexample :
    ∃ w' ps, generateMusicWithStems "out" "gen_1"
        [ReplicateAttempt.output ["http://u"] 200] ⟨[], [], [], [], 0, 0⟩ =
      Except.ok (w', ps) ∧
      ps = stemOutputPaths "out" "gen_1" ∧
      ("drums", "out/gen_1_drums.wav") ∈ ps ∧
      "out/gen_1_mix.wav" ∈ w'.fs ∧
      "out/gen_1_drums.wav" ∉ w'.fs ∧
      "out/gen_1_bass.wav" ∉ w'.fs ∧
      "out/gen_1_other.wav" ∉ w'.fs := by
  refine ⟨_, _, rfl, rfl, ?_, ?_, ?_, ?_, ?_⟩ <;> decide

theorem genStemsAttempts_ok (outputDir base : String) (w : World)
    (l : List ReplicateAttempt) (w' : World) (ps : List (String × String))
    (h : genStemsAttempts outputDir base w l = .ok (w', ps)) :
    ps = stemOutputPaths outputDir base ∧
    w' = addFile w (outputDir ++ "/" ++ base ++ "_mix.wav") := by
  induction l with
  | nil => simp [genStemsAttempts] at h
  | cons a rest ih =>
    match a with
    | .runRaises =>
      simp only [genStemsAttempts] at h
      split at h
      · exact absurd h (by simp)
      · exact ih h
    | .output [] st =>
      simp only [genStemsAttempts] at h
      split at h
      · exact absurd h (by simp)
      · exact ih h
    | .output (u :: us) st =>
      simp only [genStemsAttempts] at h
      split at h
      · obtain ⟨hw, hp⟩ := Prod.mk.injEq .. ▸ Except.ok.inj h
        exact ⟨hp.symm, hw.symm⟩
      · split at h
        · exact absurd h (by simp)
        · exact ih h

theorem genStemsAttempts_error (outputDir base : String) (w : World)
    (l : List ReplicateAttempt) (hall : ∀ a ∈ l, failedAttempt a = true) :
    ∃ e, genStemsAttempts outputDir base w l = .error e := by
  induction l with
  | nil => exact ⟨_, rfl⟩
  | cons a rest ih =>
    have ha := hall a (List.mem_cons_self a rest)
    obtain ⟨e, he⟩ := ih (fun x hx => hall x (List.mem_cons_of_mem a hx))
    match a with
    | .runRaises =>
      cases hre : rest.isEmpty with
      | true => exact ⟨"replicate.run raised", by simp [genStemsAttempts, hre]⟩
      | false => exact ⟨e, by simp [genStemsAttempts, hre, he]⟩
    | .output [] st =>
      cases hre : rest.isEmpty with
      | true => exact ⟨"Unexpected output format from Replicate",
          by simp [genStemsAttempts, hre]⟩
      | false => exact ⟨e, by simp [genStemsAttempts, hre, he]⟩
    | .output (u :: us) st =>
      have h200 : (st == 200) = false := by
        simpa [failedAttempt] using ha
      cases hre : rest.isEmpty with
      | true => exact ⟨"Failed to download audio file",
          by simp [genStemsAttempts, h200, hre]⟩
      | false => exact ⟨e, by simp [genStemsAttempts, h200, hre, he]⟩

/-- C7 (amended): `generate_music_with_stems` always returns the four-path
dict on success but writes only the mix file (nothing else changes in the
world), and when every attempt fails the whole stage raises — partial-stem
failure cannot be recorded because the Replicate call produces a single
audio URL and no per-stem status exists. -/
theorem c7_mix_only_no_per_stem (outputDir base : String)
    (attempts : List ReplicateAttempt) (w : World) :
    (∀ w' ps, generateMusicWithStems outputDir base attempts w =
        Except.ok (w', ps) →
      ps = stemOutputPaths outputDir base ∧
      w'.fs = (outputDir ++ "/" ++ base ++ "_mix.wav") :: w.fs ∧
      w'.audio_files = w.audio_files ∧ w'.uploads = w.uploads) ∧
    ((∀ a ∈ attempts, failedAttempt a = true) →
      ∃ e, generateMusicWithStems outputDir base attempts w =
        Except.error e) := by
  constructor
  · intro w' ps h
    unfold generateMusicWithStems at h
    cases hg : genStemsAttempts outputDir base w attempts with
    | error e => rw [hg] at h; exact absurd h (by simp)
    | ok r =>
      rw [hg] at h
      obtain ⟨hps, hw⟩ := genStemsAttempts_ok outputDir base w attempts w' ps
        (by rw [hg]; simpa using h)
      subst hw
      exact ⟨hps, rfl, rfl, rfl⟩
  · intro hall
    obtain ⟨e, he⟩ := genStemsAttempts_error outputDir base w attempts hall
    exact ⟨"Error generating music with stems: " ++ e,
      by simp [generateMusicWithStems, he]⟩

/-- Witness for C7 (amended): one successful attempt, and a run of three
failing attempts. -/
theorem c7_mix_only_no_per_stem_witness :
    (∀ w' ps, generateMusicWithStems "out" "gen_1"
        [ReplicateAttempt.output ["http://u"] 200] ⟨[], [], [], [], 0, 0⟩ =
        Except.ok (w', ps) →
      ps = stemOutputPaths "out" "gen_1" ∧
      w'.fs = ("out" ++ "/" ++ "gen_1" ++ "_mix.wav") :: (⟨[], [], [], [], 0, 0⟩ : World).fs ∧
      w'.audio_files = (⟨[], [], [], [], 0, 0⟩ : World).audio_files ∧
      w'.uploads = (⟨[], [], [], [], 0, 0⟩ : World).uploads) ∧
    ((∀ a ∈ [ReplicateAttempt.runRaises, ReplicateAttempt.output [] 200,
        ReplicateAttempt.output ["http://u"] 500], failedAttempt a = true) ∧
      ∃ e, generateMusicWithStems "out" "gen_1"
        [ReplicateAttempt.runRaises, ReplicateAttempt.output [] 200,
          ReplicateAttempt.output ["http://u"] 500] ⟨[], [], [], [], 0, 0⟩ =
        Except.error e) :=
  ⟨(c7_mix_only_no_per_stem "out" "gen_1"
      [ReplicateAttempt.output ["http://u"] 200] ⟨[], [], [], [], 0, 0⟩).1,
   by decide,
   (c7_mix_only_no_per_stem "out" "gen_1"
      [ReplicateAttempt.runRaises, ReplicateAttempt.output [] 200,
        ReplicateAttempt.output ["http://u"] 500] ⟨[], [], [], [], 0, 0⟩).2
      (by decide)⟩

theorem availableStemsFor_eq (db : MixDb) (gmId : Nat)
    (selected : List String) :
    availableStemsFor db gmId selected =
      (db.stems.filter (fun s => s.generated_music_id == gmId)).filter
        (fun s => selected.contains s.stem_type) := by
  unfold availableStemsFor
  rw [List.filter_filter]
  exact (List.filter_congr (fun x _ => by rw [Bool.and_comm])).symm

theorem availableTypes_eq (db : MixDb) (gmId : Nat)
    (selected : List String) :
    (availableStemsFor db gmId selected).map (fun s => s.stem_type) =
      ((db.stems.filter (fun s => s.generated_music_id == gmId)).map
        (fun s => s.stem_type)).filter (fun t => selected.contains t) := by
  rw [availableStemsFor_eq, List.filter_map]
  rfl

/-- C8: a mix request selecting a stem type that does not exist among the
generated music's stems (their types being pairwise distinct, as one row
per stem type) is rejected with the 400 client error whose detail names
exactly the missing stem types; the rejection happens before the
`MixedTrack` record is created and before the mixing task is dispatched, so
no partial mixed artifact can be produced. -/
theorem c8_missing_stems_rejected (req : MixRequest) (userId : Int)
    (fname tid : String) (db : MixDb)
    (hp : (db.projects.find? (fun p =>
      p.1 == req.proj_id && p.2 == userId)).isSome)
    (gm : GeneratedMusicRec)
    (hg : db.generated.find? (fun g => g.id == req.generated_music_id)
      = some gm)
    (hst : gm.status = "completed") (hu : gm.user_id = userId)
    (hnodupT : ((db.stems.filter (fun s =>
      s.generated_music_id == req.generated_music_id)).map
      (fun s => s.stem_type)).Nodup)
    (t0 : String) (ht0 : t0 ∈ req.selected_stems)
    (hmiss : t0 ∉ (db.stems.filter (fun s =>
      s.generated_music_id == req.generated_music_id)).map
      (fun s => s.stem_type)) :
    ∃ missing,
      createMixedTrack req userId fname tid db =
        MixOutcome.missingStems missing ∧
      missing ≠ [] ∧
      ∀ t, t ∈ missing ↔ (t ∈ req.selected_stems ∧
        t ∉ (db.stems.filter (fun s =>
          s.generated_music_id == req.generated_music_id)).map
          (fun s => s.stem_type)) := by
  obtain ⟨p, hpe⟩ := Option.isSome_iff_exists.mp hp
  set T := (db.stems.filter (fun s =>
    s.generated_music_id == req.generated_music_id)).map
    (fun s => s.stem_type) with hT
  set A := (availableStemsFor db req.generated_music_id
    req.selected_stems).map (fun s => s.stem_type) with hA
  have hAT : A = T.filter (fun t => req.selected_stems.contains t) := by
    rw [hA, hT]; exact availableTypes_eq db req.generated_music_id
      req.selected_stems
  have hmemA : ∀ t ∈ req.selected_stems, (t ∈ A ↔ t ∈ T) := by
    intro t ht
    rw [hAT]
    simp only [List.mem_filter]
    exact ⟨fun h => h.1, fun h => ⟨h, List.elem_iff.mpr ht⟩⟩
  have hlen : (availableStemsFor db req.generated_music_id
      req.selected_stems).length ≠ req.selected_stems.length := by
    have hlA : A.length = (availableStemsFor db req.generated_music_id
        req.selected_stems).length := List.length_map _ _
    have hsub : A ⊆ req.selected_stems.erase t0 := by
      intro x hx
      have hxT : x ∈ T := by rw [hAT] at hx; exact (List.mem_filter.mp hx).1
      have hxsel : x ∈ req.selected_stems := by
        rw [hAT] at hx
        exact List.elem_iff.mp (List.mem_filter.mp hx).2
      have hne : x ≠ t0 := fun h => hmiss (h ▸ hxT)
      exact (List.mem_erase_of_ne hne).mpr hxsel
    have hndA : A.Nodup := by rw [hAT]; exact hnodupT.filter _
    have hle : A.length ≤ (req.selected_stems.erase t0).length :=
      (List.subperm_of_subset hndA hsub).length_le
    rw [List.length_erase_of_mem ht0] at hle
    have hpos : 0 < req.selected_stems.length := List.length_pos_of_mem ht0
    intro hcontra
    rw [← hlA] at hcontra
    omega
  refine ⟨req.selected_stems.filter
      (fun t => !((availableStemsFor db req.generated_music_id
        req.selected_stems).map (fun s => s.stem_type)).contains t),
    ?_, ?_, ?_⟩
  · unfold createMixedTrack
    simp only [hpe, hg]
    rw [if_neg (show ¬(gm.status ≠ "completed") by simp [hst]),
      if_neg (show ¬(gm.user_id ≠ userId) by simp [hu]), if_pos hlen]
  · have hmem0 : t0 ∈ req.selected_stems.filter
        (fun t => !((availableStemsFor db req.generated_music_id
          req.selected_stems).map (fun s => s.stem_type)).contains t) := by
      rw [List.mem_filter]
      refine ⟨ht0, ?_⟩
      have hnot : t0 ∉ A := fun h => hmiss ((hmemA t0 ht0).mp h)
      rw [hA] at hnot
      rw [Bool.not_eq_true', ← Bool.not_eq_true]
      exact fun hc => hnot (List.elem_iff.mp hc)
    exact List.ne_nil_of_mem hmem0
  · intro t
    rw [List.mem_filter]
    constructor
    · rintro ⟨hts, htc⟩
      refine ⟨hts, fun htT => ?_⟩
      have hmem : t ∈ A := (hmemA t hts).mpr htT
      rw [hA] at hmem
      rw [Bool.not_eq_true', ← Bool.not_eq_true] at htc
      exact htc (List.elem_iff.mpr hmem)
    · rintro ⟨hts, htT⟩
      refine ⟨hts, ?_⟩
      have hnot : t ∉ A := fun h => htT ((hmemA t hts).mp h)
      rw [hA] at hnot
      rw [Bool.not_eq_true', ← Bool.not_eq_true]
      exact fun hc => hnot (List.elem_iff.mp hc)

/-- Witness for C8: `selected_stems = ["vocals", "drums"]` where only a
vocals stem exists — rejected naming exactly `["drums"]`. -/
theorem c8_missing_stems_rejected_witness :
    ((((⟨[(5, 7)], [⟨1, 5, 7, "completed"⟩], [⟨1, 1, "vocals"⟩], [], 1⟩ :
        MixDb)).projects.find? (fun p => p.1 == (5 : Int) && p.2 == (7 : Int))).isSome ∧
      ([(⟨1, 5, 7, "completed"⟩ : GeneratedMusicRec)].find?
        (fun g => g.id == 1) = some ⟨1, 5, 7, "completed"⟩) ∧
      ("drums" ∈ (["vocals", "drums"] : List String))) ∧
    ∃ missing,
      createMixedTrack ⟨5, 1, ["vocals", "drums"], none⟩ 7 "mix_1.wav" "t1"
          ⟨[(5, 7)], [⟨1, 5, 7, "completed"⟩], [⟨1, 1, "vocals"⟩], [], 1⟩ =
        MixOutcome.missingStems missing ∧
      missing ≠ [] ∧
      ∀ t, t ∈ missing ↔ (t ∈ (["vocals", "drums"] : List String) ∧
        t ∉ ((⟨[(5, 7)], [⟨1, 5, 7, "completed"⟩], [⟨1, 1, "vocals"⟩], [], 1⟩ :
          MixDb).stems.filter (fun s => s.generated_music_id == 1)).map
          (fun s => s.stem_type)) :=
  ⟨⟨by decide, by decide, by decide⟩,
    c8_missing_stems_rejected ⟨5, 1, ["vocals", "drums"], none⟩ 7
      "mix_1.wav" "t1"
      ⟨[(5, 7)], [⟨1, 5, 7, "completed"⟩], [⟨1, 1, "vocals"⟩], [], 1⟩
      (by decide) ⟨1, 5, 7, "completed"⟩ (by decide) rfl rfl (by decide)
      "drums" (by decide) (by decide)⟩

/-- Witness for C4: two resumes of the token `"tok-1"` over a database with
two owned tracks. -/
theorem c4_resume_twice_independent_witness :
    ((findAudio ⟨[], [], [⟨1, "t1.wav", "g1", 5, 7, false, none, none, none,
        "PENDING", none⟩, ⟨2, "t2.wav", "g2", 5, 7, false, none, none, none,
        "PENDING", none⟩], [], 3, 1⟩ 1 7).isSome ∧
      (findAudio ⟨[], [], [⟨1, "t1.wav", "g1", 5, 7, false, none, none, none,
        "PENDING", none⟩, ⟨2, "t2.wav", "g2", 5, 7, false, none, none, none,
        "PENDING", none⟩], [], 3, 1⟩ 2 7).isSome ∧
      (∃ fd, resolveFeatureData "tok-1" = TokenOutcome.ok fd)) ∧
    ∃ w1 w2 recA recB,
      generateFusionTrack 1 2 5 ⟨15, 1, 3, none⟩ "tok-1" 7 "tidA"
          ⟨[], [], [⟨1, "t1.wav", "g1", 5, 7, false, none, none, none,
            "PENDING", none⟩, ⟨2, "t2.wav", "g2", 5, 7, false, none, none,
            none, "PENDING", none⟩], [], 3, 1⟩ =
        GenerateOutcome.accepted w1 recA.id "pending" "tidA"
          [StageName.generateFusionStage, StageName.enhanceAudioStage] ∧
      generateFusionTrack 1 2 5 ⟨20, 1, 5, none⟩ "tok-1" 7 "tidB" w1 =
        GenerateOutcome.accepted w2 recB.id "pending" "tidB"
          [StageName.generateFusionStage, StageName.enhanceAudioStage] ∧
      w1.audio_files = (⟨[], [], [⟨1, "t1.wav", "g1", 5, 7, false, none,
        none, none, "PENDING", none⟩, ⟨2, "t2.wav", "g2", 5, 7, false, none,
        none, none, "PENDING", none⟩], [], 3, 1⟩ : World).audio_files ++ [recA] ∧
      w2.audio_files = (⟨[], [], [⟨1, "t1.wav", "g1", 5, 7, false, none,
        none, none, "PENDING", none⟩, ⟨2, "t2.wav", "g2", 5, 7, false, none,
        none, none, "PENDING", none⟩], [], 3, 1⟩ : World).audio_files ++ [recA, recB] ∧
      recA.id ≠ recB.id ∧
      w1.fusions = (⟨[], [], [⟨1, "t1.wav", "g1", 5, 7, false, none, none,
        none, "PENDING", none⟩, ⟨2, "t2.wav", "g2", 5, 7, false, none, none,
        none, "PENDING", none⟩], [], 3, 1⟩ : World).fusions ∧
      w2.fusions = (⟨[], [], [⟨1, "t1.wav", "g1", 5, 7, false, none, none,
        none, "PENDING", none⟩, ⟨2, "t2.wav", "g2", 5, 7, false, none, none,
        none, "PENDING", none⟩], [], 3, 1⟩ : World).fusions :=
  ⟨⟨by decide, by decide, ⟨_, rfl⟩⟩,
    c4_resume_twice_independent 1 2 5 7 ⟨15, 1, 3, none⟩ ⟨20, 1, 5, none⟩
      "tok-1" "tok-1" "tidA" "tidB" _
      (by decide) (by decide) ⟨_, rfl⟩ ⟨_, rfl⟩⟩

end Music
